import Mathlib

/-!
Verification development for the sqlite-demo repository
(`src/sqlite-demo.ipynb`) against its specification.

The notebook drives an external SQLite engine through string-formatted SQL.
We shallowly embed:

* the engine state as an association list of named tables (rows are lists
  of SQL values, where a cell may hold NULL);
* the engine operations the notebook issues (`SELECT COUNT(*)`,
  `PRAGMA TABLE_INFO`, `SELECT (col) ... WHERE col IS NOT NULL`,
  `INSERT` with primary-key enforcement) as pure state transformers;
* the notebook's summary functions `total_rows`, `table_col_info`,
  `values_in_col` (cell 21) over that engine model, keeping the source's
  structure — in particular `values_in_col` issues its per-column SELECTs
  through the module-level cursor `c`, not through its `cursor` parameter,
  exactly as the source does;
* the spec-level operations (`validate`, `build`, `summarize`) that the
  spec defines but the source only sketches, modelled from the spec's
  words where noted.
-/

namespace SQLiteDemo

/-- Error taxonomy of the spec (§7): validation errors, builder misuse,
and engine-reported failures (`sqlite3.IntegrityError` for primary-key
conflicts, `OperationalError: no such table` / `no such column` for
missing schema objects, plus a driver catch-all). -/
inductive SqlError where
  | invalidIdentifier
  | unsupportedTemplate
  | arityMismatch
  | constraintViolation
  | tableNotFound
  | noSuchColumn
  | driverError
deriving DecidableEq, Repr

/-- A character allowed anywhere in an identifier: `[A-Za-z0-9_]`. -/
def isIdentChar (ch : Char) : Bool :=
  ch.isAlpha || ch.isDigit || ch == '_'

/-- The first character of an identifier must be in `[A-Za-z_]`
(and the string must be nonempty). -/
def identHeadOk : List Char → Bool
  | [] => false
  | ch :: _ => ch.isAlpha || ch == '_'

/-- The identifier grammar of the spec (§3): nonempty, first character in
`[A-Za-z_]`, every character in `[A-Za-z0-9_]`, length at most 128. -/
def matchesIdentGrammar (s : String) : Bool :=
  identHeadOk s.data && s.data.all isIdentChar && s.length ≤ 128

/-- Modelled from the spec: the Identifier Validator `validate` of §4.1 is
not implemented in the source (the notebook only sketches a sanitizer
`clean_name`, cell 15); per the spec it returns the input unchanged when it
matches the identifier grammar and fails with `InvalidIdentifier`
otherwise, never altering the name. -/
def validate (name : String) : Except SqlError String :=
  if matchesIdentGrammar name then .ok name else .error .invalidIdentifier

/-- The source's sanitizer (cell 15): keeps only the alphanumeric
characters, silently dropping everything else (including underscores).
Embedded for contrast with `validate`: it alters names instead of
rejecting them. -/
def clean_name (some_var : String) : String :=
  ⟨some_var.data.filter (fun ch => ch.isAlpha || ch.isDigit)⟩

example : clean_name "my_table" = "mytable" := by decide

example : clean_name "robert); DROP TABLE students" = "robertDROPTABLEstudents" := by
  decide

/-- `s` begins with a decimal digit. -/
def beginsWithDigit (s : String) : Bool :=
  match s.data with
  | [] => false
  | ch :: _ => ch.isDigit

lemma digit_not_ident_head (c : Char) (h : c.isDigit = true) :
    (c.isAlpha || c == '_') = false := by
  simp only [Char.isDigit, decide_eq_true_eq, Bool.and_eq_true] at h
  obtain ⟨h1, h2⟩ := h
  have h1n : (48 : UInt32).toNat ≤ c.val.toNat := h1
  have h2n : c.val.toNat ≤ (57 : UInt32).toNat := h2
  have e1 : (48 : UInt32).toNat = 48 := rfl
  have e2 : (57 : UInt32).toNat = 57 := rfl
  rw [e1] at h1n
  rw [e2] at h2n
  have halpha : c.isAlpha = false := by
    simp only [Char.isAlpha, Char.isUpper, Char.isLower, Bool.or_eq_false_iff,
      Bool.and_eq_false_iff, decide_eq_false_iff_not, not_le, ge_iff_le, not_lt]
    constructor
    · left
      intro hle
      have h65 : (65 : UInt32).toNat ≤ c.val.toNat := hle
      have e3 : (65 : UInt32).toNat = 65 := rfl
      omega
    · left
      intro hle
      have h97 : (97 : UInt32).toNat ≤ c.val.toNat := hle
      have e4 : (97 : UInt32).toNat = 97 := rfl
      omega
  have hus : (c == '_') = false := by
    rw [beq_eq_false_iff_ne]
    intro hc
    subst hc
    exact absurd h2n (by decide)
  simp [halpha, hus]

lemma not_identChar_not_head (c : Char) (h : isIdentChar c = false) :
    (c.isAlpha || c == '_') = false := by
  simp only [isIdentChar, Bool.or_eq_false_iff] at h
  simp [h.1.1, h.2]

/-- C1. For every string matching the identifier grammar (including the
length bound), `validate` returns the input string unchanged; for every
string that is empty, begins with a digit, or contains a character outside
`[A-Za-z0-9_]`, `validate` fails with `InvalidIdentifier` — it never
returns a silently altered name. -/
theorem validate_accepts_grammar_rejects_invalid (s : String) :
    (matchesIdentGrammar s = true → validate s = .ok s) ∧
    ((s = "" ∨ beginsWithDigit s = true ∨ (∃ c ∈ s.data, isIdentChar c = false)) →
      validate s = .error .invalidIdentifier) := by
  constructor
  · intro h
    simp [validate, h]
  · intro h
    have hbad : matchesIdentGrammar s = false := by
      unfold matchesIdentGrammar
      rcases h with h | h | h
      · subst h; rfl
      · unfold beginsWithDigit at h
        rcases hs : s.data with _ | ⟨ch, rest⟩
        · rfl
        · rw [hs] at h
          have : identHeadOk (ch :: rest) = false := by
            unfold identHeadOk
            exact digit_not_ident_head ch h
          rw [this]
          simp
      · obtain ⟨c, hc, hbadc⟩ := h
        have : s.data.all isIdentChar = false := by
          rw [List.all_eq_false]
          exact ⟨c, hc, by simp [hbadc]⟩
        rw [this]
        simp
    simp [validate, hbad]

/-- Witness for C1 at concrete inputs: a well-formed identifier is
returned unchanged, and a leading-digit name and the spec's
injection-attempt string are rejected. -/
theorem validate_examples :
    validate "students" = .ok "students" ∧
    validate "1st_column" = .error .invalidIdentifier ∧
    validate "robert); DROP TABLE students" = .error .invalidIdentifier := by
  refine ⟨(validate_accepts_grammar_rejects_invalid "students").1 (by decide),
    (validate_accepts_grammar_rejects_invalid "1st_column").2 (Or.inr (Or.inl (by decide))),
    (validate_accepts_grammar_rejects_invalid "robert); DROP TABLE students").2
      (Or.inr (Or.inr ⟨')', by decide⟩))⟩

/-- An SQLite value stored in a table cell: integer, text, or NULL
(the engine's dynamic typing, restricted to the types the notebook uses). -/
inductive Val where
  | intV : Int → Val
  | textV : String → Val
  | nullV : Val
deriving DecidableEq, Repr

/-- Column metadata as reported by `PRAGMA TABLE_INFO` (cell 19 of the
source documents the tuple shape:
`(id, name, type, notnull, default_value, primary_key)`). -/
structure ColumnDescriptor where
  cid : Nat
  name : String
  declType : String
  notnull : Bool
  dflt : Option Val
  pk : Bool
deriving DecidableEq, Repr

/-- A table: its schema in the engine's ordinal order, and its rows.
Each row lists one cell per column (a NULL cell is `Val.nullV`). -/
structure Table where
  cols : List ColumnDescriptor
  rows : List (List Val)
deriving DecidableEq, Repr

/-- The engine state: an association list from table name to table
(one SQLite database file). -/
abbrev DB := List (String × Table)

/-- A statement issued to the engine, abstracted by shape. Covers the
statements the summary functions issue plus `INSERT` (cell 9). -/
inductive Stmt where
  | selectCountAll (table : String)
  | pragmaInfo (table : String)
  | selectNonNull (table col : String)
  | insertRow (table : String) (row : List Val)
deriving DecidableEq, Repr

/-- A statement is read-only when it is a SELECT or a PRAGMA. -/
def Stmt.isReadOnly : Stmt → Bool
  | .selectCountAll _ => true
  | .pragmaInfo _ => true
  | .selectNonNull _ _ => true
  | .insertRow _ _ => false

/-- What the engine returns for one statement. -/
inductive ResultSet where
  | scalar (n : Nat)
  | info (cols : List ColumnDescriptor)
  | vals (vs : List Val)
  | done
deriving DecidableEq, Repr

/-- `SELECT COUNT(*) FROM t`: the number of rows, or the engine's
`no such table` error (surfaced by the driver as an OperationalError,
the spec's `TableNotFound`). -/
def execCountAll (db : DB) (t : String) : Except SqlError Nat :=
  match db.lookup t with
  | none => .error .tableNotFound
  | some tb => .ok tb.rows.length

/-- `PRAGMA TABLE_INFO(t)`: the column descriptors in the engine's
ordinal order; SQLite reports an empty result for a missing table. -/
def execPragmaInfo (db : DB) (t : String) : List ColumnDescriptor :=
  match db.lookup t with
  | none => []
  | some tb => tb.cols

/-- `SELECT (col) FROM t WHERE col IS NOT NULL`: the non-null values of
that column, one per selected row (the notebook counts the fetched rows). -/
def execSelectNonNull (db : DB) (t col : String) : Except SqlError (List Val) :=
  match db.lookup t with
  | none => .error .tableNotFound
  | some tb =>
      match tb.cols.findIdx? (fun cd => cd.name == col) with
      | none => .error .noSuchColumn
      | some i =>
          .ok ((tb.rows.filter (fun r => r.getD i Val.nullV != Val.nullV)).map
            (fun r => r.getD i Val.nullV))

/-- Replace the table named `t`. -/
def updateTable (db : DB) (t : String) (tb : Table) : DB :=
  db.map (fun p => if p.1 == t then (t, tb) else p)

/-- `INSERT INTO t VALUES (...)`: appends the row, except that a value
already present in a PRIMARY KEY column makes the engine raise an
integrity error (`sqlite3.IntegrityError`, handled in cell 9 of the
source) and leave the table unchanged. -/
def execInsertRow (db : DB) (t : String) (r : List Val) : Except SqlError DB :=
  match db.lookup t with
  | none => .error .tableNotFound
  | some tb =>
      match tb.cols.findIdx? (fun cd => cd.pk) with
      | some i =>
          if tb.rows.any (fun r0 => r0.getD i Val.nullV == r.getD i Val.nullV) then
            .error .constraintViolation
          else
            .ok (updateTable db t { tb with rows := tb.rows ++ [r] })
      | none => .ok (updateTable db t { tb with rows := tb.rows ++ [r] })

/-- One engine step: execute a statement against the database, returning
the result and the successor database state. SELECT and PRAGMA leave the
state untouched; a failed INSERT leaves it untouched as well. -/
def execStmt (db : DB) : Stmt → Except SqlError ResultSet × DB
  | .selectCountAll t => ((execCountAll db t).map .scalar, db)
  | .pragmaInfo t => (.ok (.info (execPragmaInfo db t)), db)
  | .selectNonNull t col => ((execSelectNonNull db t col).map .vals, db)
  | .insertRow t r =>
      match execInsertRow db t r with
      | .ok db2 => (.ok .done, db2)
      | .error e => (.error e, db)

/-- The source's `total_rows` (cell 21): executes
`SELECT COUNT(*) FROM table_name` through the cursor it is given and
returns the scalar. Result, post-state and issued statements. -/
def total_rows (db : DB) (t : String) :
    Except SqlError Nat × DB × List Stmt :=
  match execStmt db (.selectCountAll t) with
  | (.ok (.scalar n), db2) => (.ok n, db2, [.selectCountAll t])
  | (.ok _, db2) => (.error .driverError, db2, [.selectCountAll t])
  | (.error e, db2) => (.error e, db2, [.selectCountAll t])

/-- The source's `table_col_info` (cell 21): executes
`PRAGMA TABLE_INFO(table_name)` through the cursor it is given and
returns the descriptor rows. -/
def table_col_info (db : DB) (t : String) :
    Except SqlError (List ColumnDescriptor) × DB × List Stmt :=
  match execStmt db (.pragmaInfo t) with
  | (.ok (.info cols), db2) => (.ok cols, db2, [.pragmaInfo t])
  | (.ok _, db2) => (.error .driverError, db2, [.pragmaInfo t])
  | (.error e, db2) => (.error e, db2, [.pragmaInfo t])

/-- Python-dict key insertion: a new key is appended, an existing key
keeps its first position (`col_dict[col[1]] = 0` in the source). -/
def insertKey (keys : List String) (k : String) : List String :=
  if k ∈ keys then keys else keys ++ [k]

/-- The keys of the dict the source builds from the PRAGMA rows, in
insertion order. -/
def dictKeys (names : List String) : List String :=
  names.foldl insertKey []

/-- The source's per-column loop (`for col in col_dict`): for each key it
executes `SELECT (col) FROM t WHERE col IS NOT NULL` — through the
module-level cursor `c`, not the `cursor` parameter — and records
`len(c.fetchall())`. -/
def countLoop (globalDb : DB) (t : String) :
    List String → Except SqlError (List (String × Nat)) × DB × List Stmt
  | [] => (.ok [], globalDb, [])
  | k :: ks =>
      match execStmt globalDb (.selectNonNull t k) with
      | (.ok (.vals vs), db2) =>
          match countLoop db2 t ks with
          | (.ok rest, db3, tr) => (.ok ((k, vs.length) :: rest), db3, .selectNonNull t k :: tr)
          | (.error e, db3, tr) => (.error e, db3, .selectNonNull t k :: tr)
      | (.ok _, db2) => (.error .driverError, db2, [.selectNonNull t k])
      | (.error e, db2) => (.error e, db2, [.selectNonNull t k])

/-- The source's `values_in_col` (cell 21). `cursorDb` is the database
behind the `cursor` parameter (used for the PRAGMA); `globalDb` is the
database behind the module-level cursor `c`, which the source's loop uses
for every per-column SELECT. In the notebook both cursors happen to point
at the same file, but the function as written reads the counts through
the global cursor. -/
def values_in_col (cursorDb globalDb : DB) (t : String) :
    Except SqlError (List (String × Nat)) × DB × List Stmt :=
  match execStmt cursorDb (.pragmaInfo t) with
  | (.ok (.info info), _) =>
      match countLoop globalDb t (dictKeys (info.map (fun cd => cd.name))) with
      | (res, db3, tr) => (res, db3, .pragmaInfo t :: tr)
  | (.ok _, _) => (.error .driverError, globalDb, [.pragmaInfo t])
  | (.error e, _) => (.error e, globalDb, [.pragmaInfo t])

/-- The spec's TableSummary (§3): total row count, descriptors in ordinal
order, and the name-to-non-null-count mapping in descriptor order. -/
structure TableSummary where
  totalRows : Nat
  cols : List ColumnDescriptor
  colCounts : List (String × Nat)
deriving DecidableEq, Repr

/-- The Summary Reporter `summarize` of §4.3, assembled exactly as the
source's driver block (cell 21, `if __name__ == '__main__'`) chains
`total_rows`, `table_col_info` and `values_in_col` over one connection,
with the spec's step 1 (identifier validation) in front. Both cursor
arguments of `values_in_col` receive the same database, as in the source
where `cursor` and `c` alias the same connection. -/
def summarize (db : DB) (t : String) :
    Except SqlError TableSummary × DB × List Stmt :=
  match validate t with
  | .error e => (.error e, db, [])
  | .ok tn =>
      match total_rows db tn with
      | (.error e, db1, tr1) => (.error e, db1, tr1)
      | (.ok n, db1, tr1) =>
          match table_col_info db1 tn with
          | (.error e, db2, tr2) => (.error e, db2, tr1 ++ tr2)
          | (.ok cols, db2, tr2) =>
              match values_in_col db2 db2 tn with
              | (.error e, db3, tr3) => (.error e, db3, tr1 ++ tr2 ++ tr3)
              | (.ok counts, db3, tr3) =>
                  (.ok ⟨n, cols, counts⟩, db3, tr1 ++ tr2 ++ tr3)

lemma total_rows_eq (db : DB) (t : String) :
    total_rows db t = (execCountAll db t, db, [.selectCountAll t]) := by
  cases h : execCountAll db t <;> simp [total_rows, execStmt, h, Except.map]

lemma table_col_info_eq (db : DB) (t : String) :
    table_col_info db t = (.ok (execPragmaInfo db t), db, [.pragmaInfo t]) := rfl

lemma countLoop_frame_trace (t : String) :
    ∀ (ks : List String) (db : DB),
      (countLoop db t ks).2.1 = db ∧
      ∀ s ∈ (countLoop db t ks).2.2, s.isReadOnly = true := by
  intro ks
  induction ks with
  | nil => intro db; exact ⟨rfl, by simp [countLoop]⟩
  | cons k ks ih =>
      intro db
      rcases h2 : countLoop db t ks with ⟨res, db3, tr⟩
      obtain ⟨ihdb, ihtr⟩ := ih db
      rw [h2] at ihdb ihtr
      replace ihdb : db3 = db := ihdb
      replace ihtr : ∀ s ∈ tr, s.isReadOnly = true := ihtr
      cases h : execSelectNonNull db t k with
      | error e =>
          refine ⟨by simp [countLoop, execStmt, h, Except.map], ?_⟩
          simp only [countLoop, execStmt, Except.map, h]
          rw [List.forall_mem_singleton]
          rfl
      | ok vs =>
          cases res with
          | ok l =>
              refine ⟨by simp [countLoop, execStmt, h, Except.map, h2, ihdb], ?_⟩
              simp only [countLoop, execStmt, Except.map, h, h2]
              rw [List.forall_mem_cons]
              exact ⟨rfl, ihtr⟩
          | error e =>
              refine ⟨by simp [countLoop, execStmt, h, Except.map, h2, ihdb], ?_⟩
              simp only [countLoop, execStmt, Except.map, h, h2]
              rw [List.forall_mem_cons]
              exact ⟨rfl, ihtr⟩

lemma values_in_col_frame_trace (cursorDb globalDb : DB) (t : String) :
    (values_in_col cursorDb globalDb t).2.1 = globalDb ∧
    ∀ s ∈ (values_in_col cursorDb globalDb t).2.2, s.isReadOnly = true := by
  rcases h2 : countLoop globalDb t
      (dictKeys ((execPragmaInfo cursorDb t).map (fun cd => cd.name))) with ⟨res, db3, tr⟩
  obtain ⟨hdb, htr⟩ := countLoop_frame_trace t
      (dictKeys ((execPragmaInfo cursorDb t).map (fun cd => cd.name))) globalDb
  rw [h2] at hdb htr
  replace hdb : db3 = globalDb := hdb
  replace htr : ∀ s ∈ tr, s.isReadOnly = true := htr
  refine ⟨by simp [values_in_col, execStmt, h2, hdb], ?_⟩
  simp only [values_in_col, execStmt, h2]
  rw [List.forall_mem_cons]
  exact ⟨rfl, htr⟩

lemma summarize_frame_trace (db : DB) (t : String) :
    (summarize db t).2.1 = db ∧
    ∀ s ∈ (summarize db t).2.2, s.isReadOnly = true := by
  cases hv : validate t with
  | error e => exact ⟨by simp [summarize, hv], by simp [summarize, hv]⟩
  | ok tn =>
      cases hc : execCountAll db tn with
      | error e =>
          refine ⟨by simp [summarize, hv, total_rows_eq, hc], ?_⟩
          simp only [summarize, hv, total_rows_eq, hc]
          rw [List.forall_mem_singleton]
          rfl
      | ok n =>
          rcases h3 : values_in_col db db tn with ⟨res3, db3, tr3⟩
          obtain ⟨hdb, htr⟩ := values_in_col_frame_trace db db tn
          rw [h3] at hdb htr
          replace hdb : db3 = db := hdb
          replace htr : ∀ s ∈ tr3, s.isReadOnly = true := htr
          cases res3 with
          | ok counts =>
              refine ⟨by simp [summarize, hv, total_rows_eq, hc, table_col_info_eq, h3, hdb], ?_⟩
              simp only [summarize, hv, total_rows_eq, hc, table_col_info_eq, h3,
                List.singleton_append, List.cons_append, List.nil_append]
              rw [List.forall_mem_cons, List.forall_mem_cons]
              exact ⟨rfl, rfl, htr⟩
          | error e =>
              refine ⟨by simp [summarize, hv, total_rows_eq, hc, table_col_info_eq, h3, hdb], ?_⟩
              simp only [summarize, hv, total_rows_eq, hc, table_col_info_eq, h3,
                List.singleton_append, List.cons_append, List.nil_append]
              rw [List.forall_mem_cons, List.forall_mem_cons]
              exact ⟨rfl, rfl, htr⟩

/-- C7. `summarize` is read-only: it leaves the database state exactly as
it found it, and every statement it issues is a SELECT or a PRAGMA (no
writes, no commit). -/
theorem summarize_read_only (db : DB) (t : String) :
    (summarize db t).2.1 = db ∧
    ∀ s ∈ (summarize db t).2.2, s.isReadOnly = true :=
  summarize_frame_trace db t

/-- C6. Calling `summarize` twice in succession — the second call running
on the state the first call left behind — returns the same result, with
identical TableSummary contents when it succeeds. -/
theorem summarize_idempotent (db : DB) (t : String) :
    (summarize ((summarize db t).2.1) t).1 = (summarize db t).1 := by
  rw [(summarize_frame_trace db t).1]

/-- The `students` table of the spec's end-to-end scenario A/B:
`(id INTEGER PRIMARY KEY, name TEXT)` holding the single row
`(1, "Alice")`. -/
def studentsTable : Table :=
  { cols := [⟨0, "id", "INTEGER", false, none, true⟩,
             ⟨1, "name", "TEXT", false, none, false⟩],
    rows := [[.intV 1, .textV "Alice"]] }

/-- A one-table database holding `studentsTable`. -/
def dbAlice : DB := [("students", studentsTable)]

/-- C4. A plain `INSERT` (not `INSERT OR IGNORE`) whose PRIMARY KEY value
already occurs in the table fails with `ConstraintViolation`, leaves the
database unchanged, and the row count reported afterwards is the old
count. -/
theorem insert_duplicate_pk_rejected (db : DB) (t : String) (tb : Table)
    (r : List Val) (i : Nat)
    (h : db.lookup t = some tb)
    (hpk : tb.cols.findIdx? (fun cd => cd.pk) = some i)
    (hdup : tb.rows.any (fun r0 => r0.getD i Val.nullV == r.getD i Val.nullV) = true) :
    execStmt db (.insertRow t r) = (.error .constraintViolation, db) ∧
    (total_rows db t).1 = .ok tb.rows.length := by
  have hins : execInsertRow db t r = .error .constraintViolation := by
    simp only [execInsertRow, h, hpk]
    rw [if_pos hdup]
  constructor
  · simp [execStmt, hins]
  · simp [total_rows_eq, execCountAll, h]

/-- Witness for C4: scenario B of the spec. With `(1, "Alice")` already
inserted, the attempt to insert `(1, "Bob")` under the same primary key
fails with `ConstraintViolation` and the row count remains 1. -/
theorem insert_duplicate_alice_bob :
    execStmt dbAlice (.insertRow "students" [.intV 1, .textV "Bob"]) =
      (.error .constraintViolation, dbAlice) ∧
    (total_rows dbAlice "students").1 = .ok 1 :=
  insert_duplicate_pk_rejected dbAlice "students" studentsTable
    [.intV 1, .textV "Bob"] 0 (by decide) (by decide) (by decide)

/-- C5. `summarize` on a name that passes identifier validation but names
no existing table fails with `TableNotFound` (the engine's error,
propagated unmasked) and returns no partial TableSummary. -/
theorem summarize_missing_table (db : DB) (t : String)
    (hv : validate t = .ok t) (hmiss : db.lookup t = none) :
    (summarize db t).1 = .error .tableNotFound := by
  simp [summarize, hv, total_rows_eq, execCountAll, hmiss]

/-- Witness for C5: scenario D of the spec, on a database that only
contains `students`. -/
theorem summarize_missing_table_example :
    (summarize dbAlice "no_such_table").1 = .error .tableNotFound :=
  summarize_missing_table dbAlice "no_such_table" rfl rfl

/-- The number of rows of `tb` whose cell in column `i` (ordinal position)
is non-null: the count the claim describes for each column. -/
def nonNullCountAt (tb : Table) (i : Nat) : Nat :=
  tb.rows.countP (fun r => r.getD i Val.nullV != Val.nullV)

/-- The claimed per-column mapping: each descriptor's name, in descriptor
order, paired with the non-null row count of that descriptor's column.
`s` is the ordinal position of the first descriptor in the list. -/
def colCountsFrom (tb : Table) : Nat → List ColumnDescriptor → List (String × Nat)
  | _, [] => []
  | s, cd :: rest => (cd.name, nonNullCountAt tb s) :: colCountsFrom tb (s + 1) rest

lemma findIdx?_name_nodup :
    ∀ (cols : List ColumnDescriptor) (s : Nat),
      (cols.map (fun cd => cd.name)).Nodup →
      ∀ j (hj : j < cols.length),
        cols.findIdx? (fun cd => cd.name == (cols.get ⟨j, hj⟩).name) s = some (s + j) := by
  intro cols
  induction cols with
  | nil => intro s _ j hj; exact absurd hj (by simp)
  | cons cd rest ih =>
      intro s hnd j hj
      rw [List.map_cons, List.nodup_cons] at hnd
      cases j with
      | zero =>
          have hget : ((cd :: rest).get ⟨0, hj⟩) = cd := rfl
          rw [List.findIdx?_cons, hget, if_pos (beq_self_eq_true cd.name), Nat.add_zero]
      | succ j =>
          have hjr : j < rest.length := Nat.lt_of_succ_lt_succ hj
          have hgetname : ((cd :: rest).get ⟨j + 1, hj⟩).name = (rest.get ⟨j, hjr⟩).name := rfl
          have hmem : (rest.get ⟨j, hjr⟩).name ∈ rest.map (fun x => x.name) :=
            List.mem_map_of_mem _ (List.get_mem rest j hjr)
          have hne : (cd.name == (rest.get ⟨j, hjr⟩).name) = false := by
            rw [beq_eq_false_iff_ne]
            intro hEq
            exact hnd.1 (hEq ▸ hmem)
          have hcond : ¬((cd.name == ((cd :: rest).get ⟨j + 1, hj⟩).name) = true) := by
            rw [hgetname, hne]
            exact Bool.false_ne_true
          rw [List.findIdx?_cons, if_neg hcond, hgetname]
          rw [ih (s + 1) hnd.2 j hjr]
          congr 1
          omega

lemma countLoop_names_spec (db : DB) (t : String) (tb : Table)
    (h : db.lookup t = some tb) :
    ∀ (cds : List ColumnDescriptor) (s : Nat),
      (∀ m (hm : m < cds.length),
        tb.cols.findIdx? (fun cd => cd.name == (cds.get ⟨m, hm⟩).name) = some (s + m)) →
      countLoop db t (cds.map (fun cd => cd.name)) =
        (.ok (colCountsFrom tb s cds), db,
          cds.map (fun cd => Stmt.selectNonNull t cd.name)) := by
  intro cds
  induction cds with
  | nil => intro s _; rfl
  | cons cd rest ih =>
      intro s hfind
      have h0 : tb.cols.findIdx? (fun x => x.name == cd.name) = some s := by
        have := hfind 0 (by simp)
        simpa using this
      have hsel : execSelectNonNull db t cd.name =
          .ok ((tb.rows.filter (fun r => r.getD s Val.nullV != Val.nullV)).map
            (fun r => r.getD s Val.nullV)) := by
        simp [execSelectNonNull, h, h0]
      have hlen : ((tb.rows.filter (fun r => r.getD s Val.nullV != Val.nullV)).map
          (fun r => r.getD s Val.nullV)).length = nonNullCountAt tb s := by
        rw [List.length_map, nonNullCountAt, List.countP_eq_length_filter]
      have hrec := ih (s + 1) (fun m hm => by
        have := hfind (m + 1) (Nat.succ_lt_succ hm)
        rw [show s + (m + 1) = s + 1 + m by omega] at this
        exact this)
      simp only [List.map_cons, countLoop, execStmt, hsel, Except.map, hrec, hlen]
      rfl

lemma foldl_insertKey (names : List String) :
    ∀ acc, names.Nodup → (∀ n ∈ names, n ∉ acc) →
      names.foldl insertKey acc = acc ++ names := by
  induction names with
  | nil => intro acc _ _; simp
  | cons n ns ih =>
      intro acc hnd hdisj
      rw [List.nodup_cons] at hnd
      have hmem : n ∉ acc := hdisj n (by simp)
      have h1 : insertKey acc n = acc ++ [n] := by simp [insertKey, hmem]
      have hdisj2 : ∀ m ∈ ns, m ∉ acc ++ [n] := by
        intro m hm
        simp only [List.mem_append, List.mem_singleton]
        rintro (hma | hmn)
        · exact hdisj m (by simp [hm]) hma
        · exact hnd.1 (hmn ▸ hm)
      rw [List.foldl_cons, h1, ih (acc ++ [n]) hnd.2 hdisj2]
      simp

lemma dictKeys_of_nodup (names : List String) (h : names.Nodup) :
    dictKeys names = names := by
  rw [dictKeys, foldl_insertKey names [] h (by simp)]
  simp

/-- C3. On an existing table (with the engine-guaranteed distinct column
names), `summarize` returns the TableSummary whose descriptors are exactly
the rows `PRAGMA TABLE_INFO` reports, in the engine's ordinal order, and
whose per-column mapping pairs each column name, in descriptor order, with
the number of rows in which that column is non-null. -/
theorem summarize_reports_schema_and_counts (db : DB) (t : String) (tb : Table)
    (h : db.lookup t = some tb)
    (hnd : (tb.cols.map (fun cd => cd.name)).Nodup)
    (hv : validate t = .ok t) :
    (summarize db t).1 =
      .ok ⟨tb.rows.length, execPragmaInfo db t, colCountsFrom tb 0 tb.cols⟩ := by
  have hcols : execPragmaInfo db t = tb.cols := by simp [execPragmaInfo, h]
  have hcount : execCountAll db t = .ok tb.rows.length := by simp [execCountAll, h]
  have hfind : ∀ m (hm : m < tb.cols.length),
      tb.cols.findIdx? (fun cd => cd.name == (tb.cols.get ⟨m, hm⟩).name) = some (0 + m) := by
    intro m hm
    exact findIdx?_name_nodup tb.cols 0 hnd m hm
  have hloop := countLoop_names_spec db t tb h tb.cols 0 hfind
  have hvic : values_in_col db db t =
      (.ok (colCountsFrom tb 0 tb.cols), db,
        .pragmaInfo t :: tb.cols.map (fun cd => Stmt.selectNonNull t cd.name)) := by
    simp only [values_in_col, execStmt, hcols, dictKeys_of_nodup _ hnd, hloop]
  simp [summarize, hv, total_rows_eq, hcount, table_col_info_eq, hvic, hcols]

/-- Witness for C3: scenario A of the spec. On the `students` table with
the single row `(1, "Alice")`, `summarize` reports one row, descriptors
`id, name` in order, and non-null counts `id = 1`, `name = 1`. -/
theorem summarize_students_example :
    (summarize dbAlice "students").1 =
      .ok ⟨1,
        [⟨0, "id", "INTEGER", false, none, true⟩,
         ⟨1, "name", "TEXT", false, none, false⟩],
        [("id", 1), ("name", 1)]⟩ :=
  summarize_reports_schema_and_counts dbAlice "students" studentsTable rfl
    (by decide) rfl

/-- A table shaped like the notebook's `my_table_3`, one text id column
(primary key) and one nullable value column, with two rows (one null). -/
def tblTwoRows : Table :=
  { cols := [⟨0, "id", "TEXT", false, none, true⟩,
             ⟨1, "val", "TEXT", false, none, false⟩],
    rows := [[.textV "a", .textV "p"], [.textV "b", .nullV]] }

/-- Same schema as `tblTwoRows` but a single row whose `val` is NULL. -/
def tblOneRow : Table :=
  { cols := [⟨0, "id", "TEXT", false, none, true⟩,
             ⟨1, "val", "TEXT", false, none, false⟩],
    rows := [[.textV "a", .nullV]] }

/-- Database behind the cursor passed to `values_in_col` as its argument. -/
def dbCursor : DB := [("my_table_3", tblOneRow)]

/-- Database behind the module-level cursor `c`. -/
def dbGlobal : DB := [("my_table_3", tblOneRow)]

/-- Database behind the module-level cursor `c` in the diverging run. -/
def dbGlobal2 : DB := [("my_table_3", tblTwoRows)]

/-- C8, evaluated at the failing input: with the explicit `cursor`
argument held fixed on `dbCursor`, changing only the state behind the
module-level cursor `c` changes the result of `values_in_col` — the
non-null counts it returns are those of the global cursor's database
(2 and 1), not those of the argument's database (1 and 0). The function
therefore reads module-level mutable state, contradicting the claim. -/
theorem values_in_col_reads_global_cursor :
    (values_in_col dbCursor dbGlobal2 "my_table_3").1 = .ok [("id", 2), ("val", 1)] ∧
    (values_in_col dbCursor dbGlobal "my_table_3").1 = .ok [("id", 1), ("val", 0)] ∧
    (values_in_col dbCursor dbGlobal2 "my_table_3").1 ≠
      (values_in_col dbCursor dbGlobal "my_table_3").1 := by
  refine ⟨rfl, rfl, ?_⟩
  intro hEq
  have : ([("id", 2), ("val", 1)] : List (String × Nat)) = [("id", 1), ("val", 0)] := by
    have h1 : (values_in_col dbCursor dbGlobal2 "my_table_3").1 =
        .ok [("id", 2), ("val", 1)] := rfl
    have h2 : (values_in_col dbCursor dbGlobal "my_table_3").1 =
        .ok [("id", 1), ("val", 0)] := rfl
    rw [h1, h2] at hEq
    exact Except.ok.inj hEq
  simp at this

/-- A live connection: the state last committed to the database file, and
the working state including any uncommitted changes (the Python driver
opens an implicit transaction for data-modifying statements). -/
structure Conn where
  committed : DB
  pending : DB
deriving DecidableEq, Repr

/-- `conn.commit()`: makes the pending state durable. -/
def commitConn (conn : Conn) : Conn := ⟨conn.pending, conn.pending⟩

/-- The source's `close` (cell 21): its docstring reads "Commit changes
and close connection to the database", but the `conn.commit()` line is
commented out, so only `conn.close()` runs; closing with an open
transaction rolls it back. The function yields the state that persists in
the file: the last committed state. -/
def close (conn : Conn) : DB := conn.committed

/-- What the docstring of `close` describes: commit, then close. -/
def closeAsDocumented (conn : Conn) : DB := (commitConn conn).committed

/-- C10. `close` closes without committing: on any connection with
pending uncommitted changes the persisted state is the previously
committed one — the pending changes are discarded — which differs from
what its docstring (commit then close) would persist. -/
theorem close_discards_pending (conn : Conn)
    (h : conn.pending ≠ conn.committed) :
    close conn = conn.committed ∧ close conn ≠ conn.pending ∧
    close conn ≠ closeAsDocumented conn := by
  refine ⟨rfl, ?_, ?_⟩
  · simpa [close] using h.symm
  · simpa [close, closeAsDocumented, commitConn] using h.symm

/-- A connection that opened an empty database file and inserted the
`students` row without committing. -/
def connPendingInsert : Conn := ⟨[], dbAlice⟩

/-- Witness for C10: closing `connPendingInsert` persists the empty
database, not the pending insert. -/
theorem close_discards_pending_example :
    close connPendingInsert = ([] : DB) ∧
    close connPendingInsert ≠ connPendingInsert.pending ∧
    close connPendingInsert ≠ closeAsDocumented connPendingInsert :=
  close_discards_pending connPendingInsert (by decide)

/-- SQLite's numeric coercion of a text operand of `-`: the value of the
longest numeric prefix. Modelled for the nonnegative integer prefixes
that date (`YYYY-MM-DD`) and time (`HH:MM:SS`) strings carry; a string
with no digit prefix coerces to 0. -/
def leadingNum (s : String) : Int :=
  Int.ofNat ((s.data.takeWhile Char.isDigit).foldl (fun a c => a * 10 + (c.toNat - 48)) 0)

/-- One row of the notebook's `my_table_3` (cell 17): a text id, a date
column in `YYYY-MM-DD` form and a time column in `HH:MM:SS` form. -/
structure EntryRow where
  id : String
  dateS : String
  timeS : String
deriving DecidableEq, Repr

/-- The source's query 5 (cell 17):
`SELECT id FROM t WHERE DATE('now') - date >= 1 AND DATE('now') - time >= 12`,
evaluated under the engine's coercion: each subtraction acts on the
numeric prefixes of the two strings. -/
def oldEntriesQuery (nowDateStr : String) (rows : List EntryRow) : List String :=
  (rows.filter (fun e =>
    decide (leadingNum nowDateStr - leadingNum e.dateS ≥ 1) &&
    decide (leadingNum nowDateStr - leadingNum e.timeS ≥ 12))).map (fun e => e.id)

/-- Value of a digit string. -/
def digitsVal (cs : List Char) : Nat :=
  cs.foldl (fun a c => a * 10 + (c.toNat - 48)) 0

/-- Days since 1970-01-01 of a Gregorian date (standard civil-calendar
arithmetic). Gives "older than" its calendar meaning, independently of
the query embedding. -/
def daysFromCivil (y m d : Int) : Int :=
  let y2 := if m ≤ 2 then y - 1 else y
  let era := (if 0 ≤ y2 then y2 else y2 - 399) / 400
  let yoe := y2 - era * 400
  let mp := (m + 9) % 12
  let doy := (153 * mp + 2) / 5 + d - 1
  let doe := yoe * 365 + yoe / 4 - yoe / 100 + doy
  era * 146097 + doe - 719468

/-- Seconds since 1970-01-01 00:00:00 of a calendar moment. -/
def tsOf (y m d hh mi ss : Int) : Int :=
  daysFromCivil y m d * 86400 + hh * 3600 + mi * 60 + ss

/-- Split a character list on a separator character. -/
def splitOnChar (sep : Char) : List Char → List (List Char)
  | [] => [[]]
  | c :: rest =>
      match splitOnChar sep rest, c == sep with
      | r, true => [] :: r
      | g :: gs, false => (c :: g) :: gs
      | [], false => [[c]]

/-- Parse `YYYY-MM-DD`. -/
def parseYMD (s : String) : Int × Int × Int :=
  match splitOnChar '-' s.data with
  | [a, b, c] => ((digitsVal a : Int), (digitsVal b : Int), (digitsVal c : Int))
  | _ => (0, 0, 0)

/-- Parse `HH:MM:SS`. -/
def parseHMS (s : String) : Int × Int × Int :=
  match splitOnChar ':' s.data with
  | [a, b, c] => ((digitsVal a : Int), (digitsVal b : Int), (digitsVal c : Int))
  | _ => (0, 0, 0)

/-- The calendar moment an entry records, from its date and time columns. -/
def entryMoment (e : EntryRow) : Int :=
  match parseYMD e.dateS, parseHMS e.timeS with
  | (y, m, d), (hh, mi, ss) => tsOf y m d hh mi ss

/-- Render a calendar date as the `YYYY-MM-DD` string `DATE('now')`
produces. -/
def pad2 (n : Nat) : String :=
  if n < 10 then "0" ++ toString n else toString n

/-- `DATE('now')` for a given calendar date. -/
def dateStringOf (y m d : Nat) : String :=
  toString y ++ "-" ++ pad2 m ++ "-" ++ pad2 d

/-- C9. The source's age filter does not implement "entries older than
1 day and 12 hours": at now = 2026-10-12 12:00:00, the single stored
entry of 2026-10-01 00:00:00 is over 11 days old (far beyond the 129600
second threshold), yet the query returns no rows — the subtraction only
compares the numeric prefixes (the years, 2026 - 2026 = 0 < 1). -/
theorem age_query_misses_old_entries :
    tsOf 2026 10 12 12 0 0 - entryMoment ⟨"some_id1", "2026-10-01", "00:00:00"⟩ > 129600 ∧
    oldEntriesQuery (dateStringOf 2026 10 12)
      [⟨"some_id1", "2026-10-01", "00:00:00"⟩] = [] := by
  exact ⟨by decide, rfl⟩

/-- Modelled from the spec: the Statement Builder's template kinds
(§4.2), the fixed enumerated set. -/
inductive TemplateKind where
  | selectAll
  | selectColumns
  | insert
  | insertOrIgnore
  | updateWhere
  | createTable
  | addColumn
  | createIndex
  | dropIndex
  | pragmaTableInfo
  | countRows
  | countNonNull
deriving DecidableEq, Repr

/-- Modelled from the spec: each template's required identifier / value
counts (§4.2). The templates that take a column list (`SELECT_COLUMNS`,
the INSERT family) take the table plus at least one column; the INSERT
family binds one value per column. -/
def arityOk : TemplateKind → Nat → Nat → Bool
  | .selectAll, nIds, nVals => nIds == 1 && nVals == 0
  | .selectColumns, nIds, nVals => decide (2 ≤ nIds) && nVals == 0
  | .insert, nIds, nVals => decide (2 ≤ nIds) && nVals == nIds - 1
  | .insertOrIgnore, nIds, nVals => decide (2 ≤ nIds) && nVals == nIds - 1
  | .updateWhere, nIds, nVals => nIds == 3 && nVals == 2
  | .createTable, nIds, nVals => nIds == 3 && nVals == 0
  | .addColumn, nIds, nVals => nIds == 3 && nVals == 0
  | .createIndex, nIds, nVals => nIds == 3 && nVals == 0
  | .dropIndex, nIds, nVals => nIds == 1 && nVals == 0
  | .pragmaTableInfo, nIds, nVals => nIds == 1 && nVals == 0
  | .countRows, nIds, nVals => nIds == 1 && nVals == 0
  | .countNonNull, nIds, nVals => nIds == 2 && nVals == 0

/-- `?, ?, ..., ?` — one parameter placeholder per bound value. -/
def placeholders : Nat → String
  | 0 => ""
  | 1 => "?"
  | n + 2 => "?, " ++ placeholders (n + 1)

/-- Comma-separated identifier list. -/
def commaSep : List String → String
  | [] => ""
  | [x] => x
  | x :: xs => x ++ ", " ++ commaSep xs

/-- Modelled from the spec: the fixed SQL skeleton of each template with
the validated identifiers substituted into the identifier slots and a
`?` placeholder in every value slot (§4.2). The skeleton shapes follow
the statements the notebook issues (cells 3-21). The catch-all arm is
unreachable under `arityOk`. -/
def sqlText : TemplateKind → List String → String
  | .selectAll, [t] => "SELECT * FROM " ++ t
  | .selectColumns, t :: cols => "SELECT " ++ commaSep cols ++ " FROM " ++ t
  | .insert, t :: cols =>
      "INSERT INTO " ++ t ++ " (" ++ commaSep cols ++ ") VALUES (" ++
        placeholders cols.length ++ ")"
  | .insertOrIgnore, t :: cols =>
      "INSERT OR IGNORE INTO " ++ t ++ " (" ++ commaSep cols ++ ") VALUES (" ++
        placeholders cols.length ++ ")"
  | .updateWhere, [t, sc, wc] =>
      "UPDATE " ++ t ++ " SET " ++ sc ++ "=? WHERE " ++ wc ++ "=?"
  | .createTable, [t, cn, ty] => "CREATE TABLE " ++ t ++ " (" ++ cn ++ " " ++ ty ++ ")"
  | .addColumn, [t, cn, ty] => "ALTER TABLE " ++ t ++ " ADD COLUMN " ++ cn ++ " " ++ ty
  | .createIndex, [ix, t, cn] => "CREATE INDEX " ++ ix ++ " on " ++ t ++ "(" ++ cn ++ ")"
  | .dropIndex, [ix] => "DROP INDEX " ++ ix
  | .pragmaTableInfo, [t] => "PRAGMA TABLE_INFO(" ++ t ++ ")"
  | .countRows, [t] => "SELECT COUNT(*) FROM " ++ t
  | .countNonNull, [t, cn] =>
      "SELECT (" ++ cn ++ ") FROM " ++ t ++ " WHERE " ++ cn ++ " IS NOT NULL"
  | _, _ => ""

/-- The spec's BoundStatement (§3): SQL text containing only validated
identifiers plus placeholders, paired with the ordered bound values. -/
structure BoundStatement where
  sql : String
  params : List Val
deriving DecidableEq, Repr

/-- Modelled from the spec: the Statement Builder `build` of §4.2 — not
implemented in the source, which formats values directly into SQL text
(e.g. cell 9's INSERT). Checks the template's declared arity, assembles
the fixed skeleton from the identifiers only, and returns the values
unchanged for binding. -/
def build (k : TemplateKind) (ids : List String) (vals : List Val) :
    Except SqlError BoundStatement :=
  if arityOk k ids.length vals.length then .ok ⟨sqlText k ids, vals⟩
  else .error .arityMismatch

/-- Number of parameter placeholders in a piece of SQL text. -/
def qCount (s : String) : Nat := s.data.count '?'

lemma qCount_append (a b : String) : qCount (a ++ b) = qCount a + qCount b := by
  simp [qCount, String.data_append]

lemma qCount_placeholders (n : Nat) : qCount (placeholders n) = n := by
  induction n with
  | zero => rfl
  | succ m ih =>
      cases m with
      | zero => rfl
      | succ k =>
          rw [show placeholders (k + 2) = "?, " ++ placeholders (k + 1) from rfl,
            qCount_append, ih, show qCount "?, " = 1 from rfl]
          omega

lemma qCount_of_grammar (s : String) (h : matchesIdentGrammar s = true) :
    qCount s = 0 := by
  rw [matchesIdentGrammar, Bool.and_eq_true, Bool.and_eq_true] at h
  rw [qCount, List.count_eq_zero]
  intro hmem
  have := List.all_eq_true.mp h.1.2 '?' hmem
  exact absurd this (by decide)

lemma qCount_commaSep (l : List String)
    (h : ∀ x ∈ l, matchesIdentGrammar x = true) : qCount (commaSep l) = 0 := by
  induction l with
  | nil => rfl
  | cons x xs ih =>
      cases xs with
      | nil => exact qCount_of_grammar x (h x (by simp))
      | cons y ys =>
          rw [show commaSep (x :: y :: ys) = x ++ ", " ++ commaSep (y :: ys) from rfl,
            qCount_append, qCount_append,
            qCount_of_grammar x (h x (by simp)),
            ih (fun z hz => h z (by simp [List.mem_cons.mp hz]))]
          rfl

lemma qCount_sqlText (k : TemplateKind) (ids : List String) (nVals : Nat)
    (hids : ∀ x ∈ ids, matchesIdentGrammar x = true)
    (h : arityOk k ids.length nVals = true) :
    qCount (sqlText k ids) = nVals := by
  cases k with
  | selectAll =>
      obtain ⟨hl, hv0⟩ : ids.length = 1 ∧ nVals = 0 := by simpa [arityOk] using h
      obtain ⟨t, rfl⟩ := List.length_eq_one.mp hl
      have ht := qCount_of_grammar t (hids t (by simp))
      simp only [sqlText, qCount_append, ht, hv0]
      rfl
  | selectColumns =>
      obtain ⟨hl, hv0⟩ : 2 ≤ ids.length ∧ nVals = 0 := by simpa [arityOk] using h
      cases ids with
      | nil => simp at hl
      | cons t cols =>
          have ht := qCount_of_grammar t (hids t (by simp))
          have hcols : ∀ x ∈ cols, matchesIdentGrammar x = true :=
            fun x hx => hids x (by simp [hx])
          simp only [sqlText, qCount_append, ht, qCount_commaSep cols hcols, hv0]
          rfl
  | insert =>
      obtain ⟨hl, hvn⟩ : 2 ≤ ids.length ∧ nVals = ids.length - 1 := by
        simpa [arityOk] using h
      cases ids with
      | nil => simp at hl
      | cons t cols =>
          have ht := qCount_of_grammar t (hids t (by simp))
          have hcols : ∀ x ∈ cols, matchesIdentGrammar x = true :=
            fun x hx => hids x (by simp [hx])
          simp only [sqlText, qCount_append, ht, qCount_commaSep cols hcols,
            qCount_placeholders]
          simp only [List.length_cons] at hvn
          have e1 : qCount "INSERT INTO " = 0 := rfl
          have e2 : qCount " (" = 0 := rfl
          have e3 : qCount ") VALUES (" = 0 := rfl
          have e4 : qCount ")" = 0 := rfl
          rw [e1, e2, e3, e4]
          omega
  | insertOrIgnore =>
      obtain ⟨hl, hvn⟩ : 2 ≤ ids.length ∧ nVals = ids.length - 1 := by
        simpa [arityOk] using h
      cases ids with
      | nil => simp at hl
      | cons t cols =>
          have ht := qCount_of_grammar t (hids t (by simp))
          have hcols : ∀ x ∈ cols, matchesIdentGrammar x = true :=
            fun x hx => hids x (by simp [hx])
          simp only [sqlText, qCount_append, ht, qCount_commaSep cols hcols,
            qCount_placeholders]
          simp only [List.length_cons] at hvn
          have e1 : qCount "INSERT OR IGNORE INTO " = 0 := rfl
          have e2 : qCount " (" = 0 := rfl
          have e3 : qCount ") VALUES (" = 0 := rfl
          have e4 : qCount ")" = 0 := rfl
          rw [e1, e2, e3, e4]
          omega
  | updateWhere =>
      obtain ⟨hl, hv2⟩ : ids.length = 3 ∧ nVals = 2 := by simpa [arityOk] using h
      obtain ⟨t, sc, wc, rfl⟩ := List.length_eq_three.mp hl
      have ht := qCount_of_grammar t (hids t (by simp))
      have hsc := qCount_of_grammar sc (hids sc (by simp))
      have hwc := qCount_of_grammar wc (hids wc (by simp))
      simp only [sqlText, qCount_append, ht, hsc, hwc, hv2]
      rfl
  | createTable =>
      obtain ⟨hl, hv0⟩ : ids.length = 3 ∧ nVals = 0 := by simpa [arityOk] using h
      obtain ⟨t, cn, ty, rfl⟩ := List.length_eq_three.mp hl
      have ht := qCount_of_grammar t (hids t (by simp))
      have hcn := qCount_of_grammar cn (hids cn (by simp))
      have hty := qCount_of_grammar ty (hids ty (by simp))
      simp only [sqlText, qCount_append, ht, hcn, hty, hv0]
      rfl
  | addColumn =>
      obtain ⟨hl, hv0⟩ : ids.length = 3 ∧ nVals = 0 := by simpa [arityOk] using h
      obtain ⟨t, cn, ty, rfl⟩ := List.length_eq_three.mp hl
      have ht := qCount_of_grammar t (hids t (by simp))
      have hcn := qCount_of_grammar cn (hids cn (by simp))
      have hty := qCount_of_grammar ty (hids ty (by simp))
      simp only [sqlText, qCount_append, ht, hcn, hty, hv0]
      rfl
  | createIndex =>
      obtain ⟨hl, hv0⟩ : ids.length = 3 ∧ nVals = 0 := by simpa [arityOk] using h
      obtain ⟨ix, t, cn, rfl⟩ := List.length_eq_three.mp hl
      have hix := qCount_of_grammar ix (hids ix (by simp))
      have ht := qCount_of_grammar t (hids t (by simp))
      have hcn := qCount_of_grammar cn (hids cn (by simp))
      simp only [sqlText, qCount_append, hix, ht, hcn, hv0]
      rfl
  | dropIndex =>
      obtain ⟨hl, hv0⟩ : ids.length = 1 ∧ nVals = 0 := by simpa [arityOk] using h
      obtain ⟨ix, rfl⟩ := List.length_eq_one.mp hl
      have hix := qCount_of_grammar ix (hids ix (by simp))
      simp only [sqlText, qCount_append, hix, hv0]
      rfl
  | pragmaTableInfo =>
      obtain ⟨hl, hv0⟩ : ids.length = 1 ∧ nVals = 0 := by simpa [arityOk] using h
      obtain ⟨t, rfl⟩ := List.length_eq_one.mp hl
      have ht := qCount_of_grammar t (hids t (by simp))
      simp only [sqlText, qCount_append, ht, hv0]
      rfl
  | countRows =>
      obtain ⟨hl, hv0⟩ : ids.length = 1 ∧ nVals = 0 := by simpa [arityOk] using h
      obtain ⟨t, rfl⟩ := List.length_eq_one.mp hl
      have ht := qCount_of_grammar t (hids t (by simp))
      simp only [sqlText, qCount_append, ht, hv0]
      rfl
  | countNonNull =>
      obtain ⟨hl, hv0⟩ : ids.length = 2 ∧ nVals = 0 := by simpa [arityOk] using h
      obtain ⟨t, cn, rfl⟩ := List.length_eq_two.mp hl
      have ht := qCount_of_grammar t (hids t (by simp))
      have hcn := qCount_of_grammar cn (hids cn (by simp))
      simp only [sqlText, qCount_append, ht, hcn, hv0]
      rfl

/-- C2. For every template/identifier/value combination honoring the
template's declared arity (identifiers being validated ones), `build`
produces SQL text that is a function of the template kind and identifiers
alone — the same text for any two value sequences, so no caller-supplied
value appears in it — returns the values unchanged for binding, and the
number of `?` placeholders in the text equals the number of supplied
values. -/
theorem build_never_embeds_values (k : TemplateKind) (ids : List String)
    (vals vals2 : List Val)
    (hids : ∀ x ∈ ids, matchesIdentGrammar x = true)
    (h : arityOk k ids.length vals.length = true)
    (h2 : arityOk k ids.length vals2.length = true) :
    build k ids vals = .ok ⟨sqlText k ids, vals⟩ ∧
    build k ids vals2 = .ok ⟨sqlText k ids, vals2⟩ ∧
    qCount (sqlText k ids) = vals.length :=
  ⟨by simp [build, h], by simp [build, h2],
    qCount_sqlText k ids vals.length hids h⟩

/-- Witness for C2: the INSERT template over `students(id, name)` yields
the same two-placeholder SQL text for the value rows `(1, "Alice")` and
`(1, "Bob")`; neither value appears in the text. -/
theorem build_insert_example :
    build .insert ["students", "id", "name"] [.intV 1, .textV "Alice"] =
      .ok ⟨"INSERT INTO students (id, name) VALUES (?, ?)", [.intV 1, .textV "Alice"]⟩ ∧
    build .insert ["students", "id", "name"] [.intV 1, .textV "Bob"] =
      .ok ⟨"INSERT INTO students (id, name) VALUES (?, ?)", [.intV 1, .textV "Bob"]⟩ ∧
    qCount "INSERT INTO students (id, name) VALUES (?, ?)" = 2 := by
  have h := build_never_embeds_values .insert ["students", "id", "name"]
    [.intV 1, .textV "Alice"] [.intV 1, .textV "Bob"] (by decide) (by decide) (by decide)
  exact ⟨h.1, h.2.1, h.2.2⟩

end SQLiteDemo
